import Mathlib

/-!
# Shallow embedding of the anime-poc fetch-and-normalize pipeline

This file embeds `src/anime-poc.ts` (shipped inside `anime-poc.test.ts`
after the document separator): the Jikan transport gateway (`fetchJikan`)
and the aggregation pipeline (`getFullAnimeDetails`) with its mapping
logic, and proves the spec's claims about them.

JavaScript runtime values distinguish `undefined` (absent property) from
`null`; the pipeline performs no validation on the JSON it receives
(`return json.data` is an unchecked cast), so raw payload fields are
modelled with a three-state `JsVal` wherever the code's own guards
(`?.`, `|| null`, `|| []`, truthiness tests) show it must cope with
absence.  Numbers are `Int` for ids and `Rat` for the statistics
scalars; `new Date(s)` is modelled parametrically by a date-parse
function `String → Option Int` (`none` standing for an Invalid Date),
since ECMAScript date parsing is outside the program text.
-/

set_option autoImplicit false

namespace AnimePoc

/-- A JavaScript value of payload type `α`: absent (`undefined`),
explicit `null`, or a proper value. -/
inductive JsVal (α : Type) : Type where
  | undef : JsVal α
  | jsNull : JsVal α
  | val : α → JsVal α
  deriving Repr, DecidableEq

namespace JsVal

/-- Optional chaining `x?.f`: `undefined` and `null` short-circuit to
`undefined`, otherwise the selected field's value is returned. -/
def optChain {α β : Type} (x : JsVal α) (f : α → JsVal β) : JsVal β :=
  match x with
  | .undef => .undef
  | .jsNull => .undef
  | .val a => f a

/-- JavaScript truthiness for a string-valued `JsVal`: `undefined`,
`null` and the empty string are falsy, every other string is truthy. -/
def truthyStr : JsVal String → Bool
  | .undef => false
  | .jsNull => false
  | .val s => !s.isEmpty

/-- The `x || y` idiom on string values: `x` when truthy, else `y`. -/
def jsOrStr (x y : JsVal String) : JsVal String :=
  if truthyStr x then x else y

/-- The `x || null` idiom used for image URLs: a truthy string survives,
anything falsy (absent, `null`, or `""`) collapses to `null`. -/
def jsOrNull (x : JsVal String) : JsVal String :=
  if truthyStr x then x else .jsNull

/-- The `x || []` idiom on array values: arrays are always truthy in
JavaScript (even `[]`), so only `undefined`/`null` fall back to `[]`. -/
def jsOrList {α : Type} (x : JsVal (List α)) : List α :=
  match x with
  | .val l => l
  | _ => []

end JsVal

/-- The source's `new Date(s)`: the ECMAScript parse, abstracted as a function to
millisecond time; `none` models an Invalid Date object. -/
def DateParse : Type := String → Option Int

/-- A JavaScript `Date` object: `time = none` is an Invalid Date. -/
structure JSDate where
  time : Option Int
  deriving Repr, DecidableEq

-- ==========================================
-- Jikan API raw types (runtime shapes)
-- ==========================================

/-- The source's `JikanMeta`: `{ mal_id, name, type }`. -/
structure JikanMeta where
  mal_id : Int
  name : String
  type : String
  deriving Repr, DecidableEq

/-- The `jpg` member of `JikanImage`: `{ image_url, large_image_url? }`. -/
structure JikanJpg where
  image_url : JsVal String
  large_image_url : JsVal String
  deriving Repr, DecidableEq

/-- The source's `JikanImage`: `{ jpg: { image_url; large_image_url? } }`. -/
structure JikanImage where
  jpg : JsVal JikanJpg
  deriving Repr, DecidableEq

/-- The `aired` member: `{ string, from, to }` (keys renamed `str`,
`from_`, `to_` because `from` is reserved in Lean). -/
structure JikanAired where
  str : JsVal String
  from_ : JsVal String
  to_ : JsVal String
  deriving Repr, DecidableEq

/-- The `theme` member: `{ openings: string[]; endings: string[] }`. -/
structure JikanTheme where
  openings : JsVal (List String)
  endings : JsVal (List String)
  deriving Repr, DecidableEq

/-- One element of `relations`: `{ relation, entry: JikanMeta[] }`. -/
structure JikanRelation where
  relation : String
  entry : List JikanMeta
  deriving Repr, DecidableEq

/-- The source's `JikanAnimeRaw`: the full-metadata payload as the mapper can actually
receive it (no runtime validation occurs, so scalars may be absent or
null regardless of the TypeScript annotations). -/
structure JikanAnimeRaw where
  mal_id : Int
  title : String
  title_english : JsVal String
  title_japanese : JsVal String
  images : JsVal JikanImage
  type : JsVal String
  status : JsVal String
  episodes : JsVal Int
  duration : JsVal String
  rating : JsVal String
  source : JsVal String
  synopsis : JsVal String
  background : JsVal String
  aired : JsVal JikanAired
  score : JsVal Rat
  rank : JsVal Int
  popularity : JsVal Int
  members : JsVal Int
  favorites : JsVal Int
  genres : List JikanMeta
  theme : JsVal JikanTheme
  relations : JsVal (List JikanRelation)
  producers : List JikanMeta
  licensors : List JikanMeta
  studios : List JikanMeta
  deriving Repr, DecidableEq

/-- The `person` / `character` sub-object of cast and staff payloads:
`{ mal_id, name, images }`. -/
structure JikanPersonRaw where
  mal_id : Int
  name : String
  images : JsVal JikanImage
  deriving Repr, DecidableEq

/-- One element of `voice_actors`: `{ person, language }`. -/
structure JikanVoiceActorRaw where
  person : JikanPersonRaw
  language : String
  deriving Repr, DecidableEq

/-- The source's `JikanCharacterRaw`: `{ character, role, voice_actors }`. -/
structure JikanCharacterRaw where
  character : JikanPersonRaw
  role : String
  voice_actors : List JikanVoiceActorRaw
  deriving Repr, DecidableEq

/-- The source's `JikanStaffRaw`: `{ person, positions: string[] }`. -/
structure JikanStaffRaw where
  person : JikanPersonRaw
  positions : List String
  deriving Repr, DecidableEq

-- ==========================================
-- Schema (target) types
-- ==========================================

/-- The source's `Genre`: `{ id, name }`. -/
structure Genre where
  id : Int
  name : String
  deriving Repr, DecidableEq

/-- The source's `Company`: `{ id, name }`. -/
structure Company where
  id : Int
  name : String
  deriving Repr, DecidableEq

/-- The closed role set of `AnimeCompany.type`. -/
inductive CompanyType where
  | Producer
  | Licensor
  | Studio
  deriving Repr, DecidableEq

/-- The source's `AnimeCompany`: `{ company, type }`. -/
structure AnimeCompany where
  company : Company
  type : CompanyType
  deriving Repr, DecidableEq

/-- The closed tag set of `AnimeTheme.type`. -/
inductive ThemeType where
  | Opening
  | Ending
  deriving Repr, DecidableEq

/-- The source's `AnimeTheme`: `{ type, text }`. -/
structure AnimeTheme where
  type : ThemeType
  text : String
  deriving Repr, DecidableEq

/-- The source's `RelatedEntry`: `{ relationType, relatedAnimeId, relatedAnimeTitle }`. -/
structure RelatedEntry where
  relationType : String
  relatedAnimeId : Int
  relatedAnimeTitle : String
  deriving Repr, DecidableEq

/-- The source's `Person` / `Character`: `{ id, name, image: string | null }`.  The
`image` field keeps the `JsVal` carrier so that the absence of coercion
to `undefined` is a provable fact rather than a typing assumption. -/
structure Person where
  id : Int
  name : String
  image : JsVal String
  deriving Repr, DecidableEq

/-- The source's `VoiceActorAssignment`: `{ person, language }`. -/
structure VoiceActorAssignment where
  person : Person
  language : String
  deriving Repr, DecidableEq

/-- The source's `AnimeCharacter`: `{ character, role, voiceActors }`.  The source
casts the raw role string with `c.role as RoleType`, which is erased at
runtime, so `role` remains a `String` here. -/
structure AnimeCharacter where
  character : Person
  role : String
  voiceActors : List VoiceActorAssignment
  deriving Repr, DecidableEq

/-- The source's `AnimeStaff`: `{ person, role }`. -/
structure AnimeStaff where
  person : Person
  role : String
  deriving Repr, DecidableEq

/-- The source's `AnimeStats`: five independently nullable numeric metrics, copied
verbatim from the raw payload. -/
structure AnimeStats where
  score : JsVal Rat
  ranked : JsVal Int
  popularity : JsVal Int
  members : JsVal Int
  favorites : JsVal Int
  deriving Repr, DecidableEq

/-- The aggregate root `Anime`.  Scalar fields keep the `JsVal` carrier
because the mapper copies raw scalars verbatim; collection fields are
plain lists because every collection key of the returned object literal
is assigned an array expression. -/
structure Anime where
  id : Int
  title : String
  titleEnglish : JsVal String
  titleJapanese : JsVal String
  type : JsVal String
  status : JsVal String
  episodes : JsVal Int
  duration : JsVal String
  rating : JsVal String
  source : JsVal String
  airedString : JsVal String
  airedFrom : JsVal JSDate
  airedTo : JsVal JSDate
  mainPicture : JsVal String
  synopsis : JsVal String
  background : JsVal String
  stats : AnimeStats
  genres : List Genre
  companies : List AnimeCompany
  themes : List AnimeTheme
  relatedEntries : List RelatedEntry
  characters : List AnimeCharacter
  staff : List AnimeStaff
  deriving Repr, DecidableEq

-- ==========================================
-- Fetcher (transport gateway)
-- ==========================================

/-- The source's `BASE_URL`. -/
def BASE_URL : String := "https://api.jikan.moe/v4"

/-- The source's `DELAY_MS` — the fixed rate-limit courtesy delay. -/
def DELAY_MS : Nat := 1000

/-- The error thrown by `fetchJikan` on a non-success status:
`new Error(\x60Jikan API Error ${res.status}: ${res.statusText}\x60)`.
It carries the numeric status and the status text. -/
structure UpstreamError where
  status : Nat
  statusText : String
  deriving Repr, DecidableEq

/-- The message string of the thrown error. -/
def UpstreamError.message (e : UpstreamError) : String :=
  "Jikan API Error " ++ toString e.status ++ ": " ++ e.statusText

/-- The observable suspension points of one pipeline run: an outbound
GET request (with its full URL) or a `sleep` of a given duration. -/
inductive Event where
  | request : String → Event
  | sleep : Nat → Event
  deriving Repr, DecidableEq

/-- The upstream's answer to one GET, as the gateway observes it: the
HTTP success flag, status, status text, and (when consulted) the payload
found under the `data` envelope, already decoded at type `α`. -/
structure RawResponse (α : Type) where
  ok : Bool
  status : Nat
  statusText : String
  body : α
  deriving Repr, DecidableEq

/-- The source's `fetchJikan<T>(endpoint)`: issues one GET against
`BASE_URL + endpoint`; on `!res.ok` throws the `Jikan API Error`;
otherwise returns `json.data`.  The first component is the trace of
suspension events the call produces. -/
def fetchJikan {α : Type} (endpoint : String) (res : RawResponse α) :
    List Event × Except UpstreamError α :=
  ([Event.request (BASE_URL ++ endpoint)],
    if res.ok then .ok res.body else .error ⟨res.status, res.statusText⟩)

/-- The three upstream responses one invocation of the pipeline can
consume, indexed by which endpoint they answer. -/
structure Upstream where
  full : RawResponse JikanAnimeRaw
  characters : RawResponse (List JikanCharacterRaw)
  staff : RawResponse (List JikanStaffRaw)
  deriving Repr, DecidableEq

-- ==========================================
-- Mapping logic
-- ==========================================

/-- The source's `{ id: p.mal_id, name: p.name }` for companies. -/
def mapCompany (p : JikanMeta) : Company :=
  { id := p.mal_id, name := p.name }

/-- The `companies` list: producers, then licensors, then studios, each
mapped to an `AnimeCompany` with its fixed role tag. -/
def mapCompanies (producers licensors studios : List JikanMeta) :
    List AnimeCompany :=
  producers.map (fun p => { company := mapCompany p, type := .Producer })
    ++ licensors.map (fun p => { company := mapCompany p, type := .Licensor })
    ++ studios.map (fun p => { company := mapCompany p, type := .Studio })

/-- The `themes` list: `(theme?.openings || [])` tagged `Opening`, then
`(theme?.endings || [])` tagged `Ending`. -/
def mapThemes (theme : JsVal JikanTheme) : List AnimeTheme :=
  (JsVal.jsOrList (theme.optChain (fun t => t.openings))).map
      (fun t => { type := .Opening, text := t })
    ++ (JsVal.jsOrList (theme.optChain (fun t => t.endings))).map
      (fun t => { type := .Ending, text := t })

/-- The `relatedEntries` list: `relations?.flatMap(...) || []`, each
group filtered to entries whose `type` is `"anime"`. -/
def mapRelated (relations : JsVal (List JikanRelation)) : List RelatedEntry :=
  match relations with
  | .val rels =>
      rels.flatMap (fun rel =>
        (rel.entry.filter (fun e => e.type == "anime")).map (fun entry =>
          { relationType := rel.relation
            relatedAnimeId := entry.mal_id
            relatedAnimeTitle := entry.name }))
  | _ => []

/-- The source's `x.images?.jpg?.image_url`. -/
def rawImageUrl (images : JsVal JikanImage) : JsVal String :=
  (images.optChain (fun i => i.jpg)).optChain (fun j => j.image_url)

/-- A person or character sub-object:
`{ id: x.mal_id, name: x.name, image: x.images?.jpg?.image_url || null }`. -/
def mapPerson (x : JikanPersonRaw) : Person :=
  { id := x.mal_id, name := x.name
    image := JsVal.jsOrNull (rawImageUrl x.images) }

/-- The `characters` list: role copied verbatim (the `as RoleType` cast
is erased at runtime), character and nested voice actors mapped with the
`|| null` image fallback, input order preserved. -/
def mapCharacters (rawChars : List JikanCharacterRaw) : List AnimeCharacter :=
  rawChars.map (fun c =>
    { role := c.role
      character := mapPerson c.character
      voiceActors := c.voice_actors.map (fun va =>
        { language := va.language, person := mapPerson va.person }) })

/-- The `staff` list: each raw entry's `positions` are flattened, one
`AnimeStaff` per position label, all sharing the mapped person. -/
def mapStaff (rawStaff : List JikanStaffRaw) : List AnimeStaff :=
  rawStaff.flatMap (fun s =>
    s.positions.map (fun role =>
      { role := role, person := mapPerson s.person }))

/-- The `aired?.from ? new Date(aired.from) : null` ternary: a truthy
string is parsed into a `Date` (possibly an Invalid one), anything
falsy yields `null`. -/
def mapAired (parse : DateParse) (v : JsVal String) : JsVal JSDate :=
  match v with
  | .val s => if s.isEmpty then .jsNull else .val ⟨parse s⟩
  | _ => .jsNull

/-- The returned object literal of `getFullAnimeDetails`: every scalar
copied verbatim from the raw metadata, `aired?.from` / `aired?.to`
turned into a `Date` when truthy and `null` otherwise, the main picture
taken with the large-variant fallback, and the five mapped collections.
`parse` stands for ECMAScript date parsing inside `new Date`. -/
def mapAnime (parse : DateParse) (rawAnime : JikanAnimeRaw)
    (rawChars : List JikanCharacterRaw) (rawStaff : List JikanStaffRaw) :
    Anime :=
  { id := rawAnime.mal_id
    title := rawAnime.title
    titleEnglish := rawAnime.title_english
    titleJapanese := rawAnime.title_japanese
    type := rawAnime.type
    status := rawAnime.status
    episodes := rawAnime.episodes
    duration := rawAnime.duration
    rating := rawAnime.rating
    source := rawAnime.source
    airedString := rawAnime.aired.optChain (fun a => a.str)
    airedFrom := mapAired parse (rawAnime.aired.optChain (fun a => a.from_))
    airedTo := mapAired parse (rawAnime.aired.optChain (fun a => a.to_))
    mainPicture :=
      JsVal.jsOrStr
        ((rawAnime.images.optChain (fun i => i.jpg)).optChain
          (fun j => j.large_image_url))
        (rawImageUrl rawAnime.images)
    synopsis := rawAnime.synopsis
    background := rawAnime.background
    stats :=
      { score := rawAnime.score
        ranked := rawAnime.rank
        popularity := rawAnime.popularity
        members := rawAnime.members
        favorites := rawAnime.favorites }
    genres := rawAnime.genres.map (fun g => { id := g.mal_id, name := g.name })
    companies := mapCompanies rawAnime.producers rawAnime.licensors
      rawAnime.studios
    themes := mapThemes rawAnime.theme
    relatedEntries := mapRelated rawAnime.relations
    characters := mapCharacters rawChars
    staff := mapStaff rawStaff }

/-- The source's `getFullAnimeDetails(malId)`: fetch `/anime/{id}/full`, sleep
`DELAY_MS`, fetch `/anime/{id}/characters`, sleep `DELAY_MS`, fetch
`/anime/{id}/staff`, then map and merge.  Returns the trace of
suspension events together with either the thrown `UpstreamError` or
the aggregate. -/
def getFullAnimeDetails (parse : DateParse) (up : Upstream) (malId : Int) :
    List Event × Except UpstreamError Anime :=
  match fetchJikan ("/anime/" ++ toString malId ++ "/full") up.full with
  | (t1, .error e) => (t1, .error e)
  | (t1, .ok rawAnime) =>
    match fetchJikan ("/anime/" ++ toString malId ++ "/characters")
        up.characters with
    | (t2, .error e) => (t1 ++ [Event.sleep DELAY_MS] ++ t2, .error e)
    | (t2, .ok rawChars) =>
      match fetchJikan ("/anime/" ++ toString malId ++ "/staff") up.staff with
      | (t3, .error e) =>
          (t1 ++ [Event.sleep DELAY_MS] ++ t2 ++ [Event.sleep DELAY_MS] ++ t3,
            .error e)
      | (t3, .ok rawStaff) =>
          (t1 ++ [Event.sleep DELAY_MS] ++ t2 ++ [Event.sleep DELAY_MS] ++ t3,
            .ok (mapAnime parse rawAnime rawChars rawStaff))

-- ==========================================
-- Concrete fixtures (used by witnesses and counterexamples)
-- ==========================================

/-- A total date parse: every string parses to epoch time `0`. -/
def parse0 : DateParse := fun _ => some 0

/-- A minimal raw metadata payload, shaped after the Frieren scenario of
the spec's §8. -/
def rawAnime0 : JikanAnimeRaw :=
  { mal_id := 52991
    title := "Sousou no Frieren"
    title_english := .val "Frieren: Beyond Journey's End"
    title_japanese := .jsNull
    images := .val { jpg := .val { image_url := .val "pic.jpg", large_image_url := .undef } }
    type := .val "TV"
    status := .jsNull
    episodes := .val 28
    duration := .jsNull
    rating := .jsNull
    source := .jsNull
    synopsis := .val "During their decade-long quest..."
    background := .jsNull
    aired := .val { str := .val "Sep 29, 2023 to Mar 22, 2024"
                    from_ := .val "2023-09-29T00:00:00+00:00"
                    to_ := .jsNull }
    score := .val (939 / 100 : Rat)
    rank := .val 1
    popularity := .jsNull
    members := .jsNull
    favorites := .jsNull
    genres := [{ mal_id := 2, name := "Adventure", type := "anime" }]
    theme := .val { openings := .val ["1: Yuusha by YOASOBI"], endings := .jsNull }
    relations := .jsNull
    producers := []
    licensors := []
    studios := [{ mal_id := 11, name := "Madhouse", type := "anime" }] }

/-- A minimal raw cast payload: one main character with one voice actor
whose image URL is explicitly `null`. -/
def rawChars0 : List JikanCharacterRaw :=
  [{ character :=
      { mal_id := 1, name := "Frieren"
        images := .val { jpg := .val { image_url := .val "frieren.jpg", large_image_url := .undef } } }
     role := "Main"
     voice_actors :=
      [{ person :=
          { mal_id := 1, name := "Tanezaki, Atsumi"
            images := .val { jpg := .val { image_url := .jsNull, large_image_url := .undef } } }
         language := "Japanese" }] }]

/-- A minimal raw staff payload: one person with two position labels and
an empty-string image URL. -/
def rawStaff0 : List JikanStaffRaw :=
  [{ person :=
      { mal_id := 1, name := "Evan Call"
        images := .val { jpg := .val { image_url := .val "", large_image_url := .undef } } }
     positions := ["Music", "Theme Song Arrangement"] }]

/-- An upstream where all three fetches succeed. -/
def up0 : Upstream :=
  { full := { ok := true, status := 200, statusText := "OK", body := rawAnime0 }
    characters := { ok := true, status := 200, statusText := "OK", body := rawChars0 }
    staff := { ok := true, status := 200, statusText := "OK", body := rawStaff0 } }

/-- An upstream where the cast fetch is rate-limited with HTTP 429. -/
def up429 : Upstream :=
  { up0 with characters := { ok := false, status := 429, statusText := "Too Many Requests", body := [] } }

-- ==========================================
-- Helper lemmas
-- ==========================================

/-- When all three fetches succeed the run produces the five-event trace
and the mapped aggregate. -/
theorem getFullAnimeDetails_all_ok (p : DateParse) (up : Upstream) (malId : Int)
    (h1 : up.full.ok = true) (h2 : up.characters.ok = true)
    (h3 : up.staff.ok = true) :
    getFullAnimeDetails p up malId =
      ([Event.request (BASE_URL ++ ("/anime/" ++ toString malId ++ "/full")),
        Event.sleep DELAY_MS,
        Event.request (BASE_URL ++ ("/anime/" ++ toString malId ++ "/characters")),
        Event.sleep DELAY_MS,
        Event.request (BASE_URL ++ ("/anime/" ++ toString malId ++ "/staff"))],
       .ok (mapAnime p up.full.body up.characters.body up.staff.body)) := by
  simp [getFullAnimeDetails, fetchJikan, h1, h2, h3]

/-- The run returns an aggregate exactly when all three fetches succeed,
and that aggregate is the mapped merge of the three payloads. -/
theorem getFullAnimeDetails_ok_iff (p : DateParse) (up : Upstream) (malId : Int)
    (a : Anime) :
    (getFullAnimeDetails p up malId).2 = .ok a ↔
      up.full.ok = true ∧ up.characters.ok = true ∧ up.staff.ok = true ∧
        a = mapAnime p up.full.body up.characters.body up.staff.body := by
  cases h1 : up.full.ok <;> cases h2 : up.characters.ok <;> cases h3 : up.staff.ok <;>
    simp [getFullAnimeDetails, fetchJikan, h1, h2, h3, eq_comm]

/-- A raw metadata payload with `title_english` absent (the key missing
from the JSON object), and with all three fetches succeeding. -/
def upAbsent : Upstream :=
  { up0 with full := { up0.full with body := { rawAnime0 with title_english := .undef } } }

/-- The same successful upstream data as `up0` behind different
transport metadata (status text), for the idempotence witness. -/
def up0alt : Upstream :=
  { full := { ok := true, status := 203, statusText := "Non-Authoritative", body := rawAnime0 }
    characters := { ok := true, status := 203, statusText := "Non-Authoritative", body := rawChars0 }
    staff := { ok := true, status := 203, statusText := "Non-Authoritative", body := rawStaff0 } }

-- ==========================================
-- Claims
-- ==========================================

/-- C1 (amended): in every fully successful invocation of
`getFullAnimeDetails`, the three Gateway fetches occur in the fixed
order metadata, characters, staff, with exactly one fixed rate-limit
delay suspension between the first and second fetch AND exactly one
between the second and third fetch (the source sleeps `DELAY_MS` after
the metadata fetch and again after the characters fetch). -/
theorem claim_C1_delay_between_every_fetch (p : DateParse) (up : Upstream)
    (malId : Int) (h1 : up.full.ok = true) (h2 : up.characters.ok = true)
    (h3 : up.staff.ok = true) :
    (getFullAnimeDetails p up malId).1 =
      [Event.request (BASE_URL ++ ("/anime/" ++ toString malId ++ "/full")),
       Event.sleep DELAY_MS,
       Event.request (BASE_URL ++ ("/anime/" ++ toString malId ++ "/characters")),
       Event.sleep DELAY_MS,
       Event.request (BASE_URL ++ ("/anime/" ++ toString malId ++ "/staff"))] := by
  rw [getFullAnimeDetails_all_ok p up malId h1 h2 h3]

/-- C1 witness: a concrete successful run realizes the five-event trace. -/
theorem claim_C1_delay_between_every_fetch_witness :
    (getFullAnimeDetails parse0 up0 1).1 =
      [Event.request (BASE_URL ++ ("/anime/" ++ toString (1 : Int) ++ "/full")),
       Event.sleep DELAY_MS,
       Event.request (BASE_URL ++ ("/anime/" ++ toString (1 : Int) ++ "/characters")),
       Event.sleep DELAY_MS,
       Event.request (BASE_URL ++ ("/anime/" ++ toString (1 : Int) ++ "/staff"))] :=
  claim_C1_delay_between_every_fetch parse0 up0 1 rfl rfl rfl

/-- C1 counterexample: the claim's trace — one delay between fetches 1
and 2 and none between fetches 2 and 3 — does not occur; the concrete
run's trace contains a second `sleep` between the characters fetch and
the staff fetch. -/
theorem claim_C1_counterexample :
    (getFullAnimeDetails parse0 up0 1).1 =
      [Event.request (BASE_URL ++ "/anime/1/full"), Event.sleep DELAY_MS,
       Event.request (BASE_URL ++ "/anime/1/characters"), Event.sleep DELAY_MS,
       Event.request (BASE_URL ++ "/anime/1/staff")] ∧
    (getFullAnimeDetails parse0 up0 1).1 ≠
      [Event.request (BASE_URL ++ "/anime/1/full"), Event.sleep DELAY_MS,
       Event.request (BASE_URL ++ "/anime/1/characters"),
       Event.request (BASE_URL ++ "/anime/1/staff")] := by
  constructor
  · decide
  · decide

/-- C2 (amended): every optional scalar of the aggregate is the raw
metadata field copied verbatim: an upstream scalar that is explicitly
`null` is carried through as `null` and is never coerced to a sentinel
(empty string, zero), but an upstream scalar that is absent is carried
through as absent (`undefined`), not as `null`. -/
theorem claim_C2_scalars_copied_verbatim (p : DateParse)
    (raw : JikanAnimeRaw) (chars : List JikanCharacterRaw)
    (staff : List JikanStaffRaw) :
    (mapAnime p raw chars staff).titleEnglish = raw.title_english ∧
    (mapAnime p raw chars staff).titleJapanese = raw.title_japanese ∧
    (mapAnime p raw chars staff).type = raw.type ∧
    (mapAnime p raw chars staff).status = raw.status ∧
    (mapAnime p raw chars staff).episodes = raw.episodes ∧
    (mapAnime p raw chars staff).duration = raw.duration ∧
    (mapAnime p raw chars staff).rating = raw.rating ∧
    (mapAnime p raw chars staff).source = raw.source ∧
    (mapAnime p raw chars staff).synopsis = raw.synopsis ∧
    (mapAnime p raw chars staff).background = raw.background ∧
    (mapAnime p raw chars staff).stats.score = raw.score ∧
    (mapAnime p raw chars staff).stats.ranked = raw.rank ∧
    (mapAnime p raw chars staff).stats.popularity = raw.popularity ∧
    (mapAnime p raw chars staff).stats.members = raw.members ∧
    (mapAnime p raw chars staff).stats.favorites = raw.favorites :=
  ⟨rfl, rfl, rfl, rfl, rfl, rfl, rfl, rfl, rfl, rfl, rfl, rfl, rfl, rfl, rfl⟩

/-- C2 counterexample: with `title_english` absent from the raw payload,
the Title returned by a successful run carries `undefined` for
`titleEnglish`, not `null` — an absent scalar is not mapped to null. -/
theorem claim_C2_counterexample :
    ((getFullAnimeDetails parse0 upAbsent 1).2.map (fun a => a.titleEnglish)) =
      .ok .undef ∧ (JsVal.undef : JsVal String) ≠ .jsNull :=
  ⟨rfl, by decide⟩

/-- C3: if any of the three fetches answers with a non-success status,
the gateway fails with the upstream error carrying that fetch's numeric
status and status text, the whole pipeline call rejects with exactly
that error, and an aggregate is returned only when all three fetches
succeeded — no partial aggregate ever reaches the caller. -/
theorem claim_C3_upstream_error_aborts (p : DateParse) (up : Upstream)
    (malId : Int) :
    (up.full.ok = false →
      (getFullAnimeDetails p up malId).2 =
        .error ⟨up.full.status, up.full.statusText⟩) ∧
    (up.full.ok = true → up.characters.ok = false →
      (getFullAnimeDetails p up malId).2 =
        .error ⟨up.characters.status, up.characters.statusText⟩) ∧
    (up.full.ok = true → up.characters.ok = true → up.staff.ok = false →
      (getFullAnimeDetails p up malId).2 =
        .error ⟨up.staff.status, up.staff.statusText⟩) ∧
    (∀ a : Anime, (getFullAnimeDetails p up malId).2 = .ok a →
      up.full.ok = true ∧ up.characters.ok = true ∧ up.staff.ok = true) := by
  refine ⟨fun h1 => ?_, fun h1 h2 => ?_, fun h1 h2 h3 => ?_, fun a h => ?_⟩
  · simp [getFullAnimeDetails, fetchJikan, h1]
  · simp [getFullAnimeDetails, fetchJikan, h1, h2]
  · simp [getFullAnimeDetails, fetchJikan, h1, h2, h3]
  · obtain ⟨x1, x2, x3, _⟩ := (getFullAnimeDetails_ok_iff p up malId a).1 h
    exact ⟨x1, x2, x3⟩

/-- C3 witness: the spec's scenario — HTTP 429 on the cast fetch makes
the pipeline reject with the 429 upstream error. -/
theorem claim_C3_upstream_error_aborts_witness :
    (getFullAnimeDetails parse0 up429 1).2 =
      .error ⟨up429.characters.status, up429.characters.statusText⟩ :=
  (claim_C3_upstream_error_aborts parse0 up429 1).2.1 rfl rfl

/-- C7: the id of the Title returned by a successful run equals the raw
metadata payload's `mal_id` exactly. -/
theorem claim_C7_id_preserved (p : DateParse) (up : Upstream) (malId : Int)
    (a : Anime) (h : (getFullAnimeDetails p up malId).2 = .ok a) :
    a.id = up.full.body.mal_id := by
  obtain ⟨_, _, _, rfl⟩ := (getFullAnimeDetails_ok_iff p up malId a).1 h
  rfl

/-- C7 witness: the concrete successful run preserves the raw id. -/
theorem claim_C7_id_preserved_witness :
    (mapAnime parse0 rawAnime0 rawChars0 rawStaff0).id = up0.full.body.mal_id :=
  claim_C7_id_preserved parse0 up0 1 (mapAnime parse0 rawAnime0 rawChars0 rawStaff0) rfl

/-- C9: two successful invocations whose three raw payloads coincide
return structurally identical aggregates — the result depends on
nothing but the payloads (and the date parse), so no state accumulates
between calls. -/
theorem claim_C9_idempotent (p : DateParse) (malId : Int)
    (up1 up2 : Upstream) (a1 a2 : Anime)
    (hfull : up1.full.body = up2.full.body)
    (hchars : up1.characters.body = up2.characters.body)
    (hstaff : up1.staff.body = up2.staff.body)
    (h1 : (getFullAnimeDetails p up1 malId).2 = .ok a1)
    (h2 : (getFullAnimeDetails p up2 malId).2 = .ok a2) :
    a1 = a2 := by
  obtain ⟨_, _, _, rfl⟩ := (getFullAnimeDetails_ok_iff p up1 malId a1).1 h1
  obtain ⟨_, _, _, rfl⟩ := (getFullAnimeDetails_ok_iff p up2 malId a2).1 h2
  rw [hfull, hchars, hstaff]

/-- C9 witness: two runs against the same payloads (behind different
transport metadata) return the same aggregate. -/
theorem claim_C9_idempotent_witness :
    mapAnime parse0 up0.full.body up0.characters.body up0.staff.body =
      mapAnime parse0 up0alt.full.body up0alt.characters.body up0alt.staff.body :=
  claim_C9_idempotent parse0 1 up0 up0alt
    (mapAnime parse0 up0.full.body up0.characters.body up0.staff.body)
    (mapAnime parse0 up0alt.full.body up0alt.characters.body up0alt.staff.body)
    rfl rfl rfl rfl rfl

/-- C5: the aggregate's organization list is exactly the producers
mapped to (id, name) pairs tagged `Producer`, then the licensors tagged
`Licensor`, then the studios tagged `Studio`; consequently the role
tags come in three contiguous blocks and each sublist preserves the
input order of its raw list. -/
theorem claim_C5_organization_order (p : DateParse) (raw : JikanAnimeRaw)
    (chars : List JikanCharacterRaw) (staffL : List JikanStaffRaw) :
    (mapAnime p raw chars staffL).companies =
      raw.producers.map (fun q =>
          { company := { id := q.mal_id, name := q.name }, type := CompanyType.Producer })
        ++ raw.licensors.map (fun q =>
          { company := { id := q.mal_id, name := q.name }, type := CompanyType.Licensor })
        ++ raw.studios.map (fun q =>
          { company := { id := q.mal_id, name := q.name }, type := CompanyType.Studio }) ∧
    ((mapAnime p raw chars staffL).companies).map AnimeCompany.type =
      List.replicate raw.producers.length CompanyType.Producer
        ++ List.replicate raw.licensors.length CompanyType.Licensor
        ++ List.replicate raw.studios.length CompanyType.Studio ∧
    ((mapAnime p raw chars staffL).companies).map AnimeCompany.company =
      (raw.producers ++ raw.licensors ++ raw.studios).map mapCompany := by
  refine ⟨rfl, ?_, ?_⟩
  · simp [mapAnime, mapCompanies, List.map_map, Function.comp_def, List.map_const']
  · simp [mapAnime, mapCompanies, List.map_map, Function.comp_def]

/-- C6: the aggregate's theme list is the raw opening strings tagged
`Opening` followed by the raw ending strings tagged `Ending`, each
group in input order; a missing `theme` object or a missing
openings/endings sub-list contributes an empty list rather than an
error. -/
theorem claim_C6_theme_order (p : DateParse) (raw : JikanAnimeRaw)
    (chars : List JikanCharacterRaw) (staffL : List JikanStaffRaw)
    (op ed : JsVal (List String)) :
    (mapAnime p raw chars staffL).themes = mapThemes raw.theme ∧
    (mapThemes raw.theme).map AnimeTheme.type =
      List.replicate
          (JsVal.jsOrList (raw.theme.optChain (fun t => t.openings))).length
          ThemeType.Opening
        ++ List.replicate
          (JsVal.jsOrList (raw.theme.optChain (fun t => t.endings))).length
          ThemeType.Ending ∧
    (mapThemes raw.theme).map AnimeTheme.text =
      JsVal.jsOrList (raw.theme.optChain (fun t => t.openings))
        ++ JsVal.jsOrList (raw.theme.optChain (fun t => t.endings)) ∧
    mapThemes .undef = [] ∧
    mapThemes .jsNull = [] ∧
    mapThemes (.val { openings := .undef, endings := ed }) =
      (JsVal.jsOrList ed).map (fun t => { type := ThemeType.Ending, text := t }) ∧
    mapThemes (.val { openings := .jsNull, endings := ed }) =
      (JsVal.jsOrList ed).map (fun t => { type := ThemeType.Ending, text := t }) ∧
    mapThemes (.val { openings := op, endings := .undef }) =
      (JsVal.jsOrList op).map (fun t => { type := ThemeType.Opening, text := t }) ∧
    mapThemes (.val { openings := op, endings := .jsNull }) =
      (JsVal.jsOrList op).map (fun t => { type := ThemeType.Opening, text := t }) := by
  refine ⟨rfl, ?_, ?_, rfl, rfl, rfl, rfl, ?_, ?_⟩
  · simp [mapThemes, List.map_map, Function.comp_def, List.map_const']
  · simp [mapThemes, List.map_map, Function.comp_def]
  · simp [mapThemes, JsVal.optChain, JsVal.jsOrList]
  · simp [mapThemes, JsVal.optChain, JsVal.jsOrList]

/-- Unfolding the staff flattening one raw entry at a time. -/
theorem mapStaff_cons (s : JikanStaffRaw) (t : List JikanStaffRaw) :
    mapStaff (s :: t) =
      s.positions.map (fun role => { role := role, person := mapPerson s.person })
        ++ mapStaff t := rfl

/-- C4: the aggregate's staff list is the flattening of the raw staff
entries: its length is the sum of the entries' position-label counts,
and the block of output entries contributed by input entry `i` — the
slice starting at the sum of the previous entries' counts — is exactly
entry `i`'s position labels in order, every one paired with that same
mapped person. -/
theorem claim_C4_staff_flattening (p : DateParse) (raw : JikanAnimeRaw)
    (chars : List JikanCharacterRaw) (l : List JikanStaffRaw) :
    (mapAnime p raw chars l).staff = mapStaff l ∧
    (mapStaff l).length = (l.map (fun s => s.positions.length)).sum ∧
    ∀ (i : Nat) (h : i < l.length),
      ((mapStaff l).drop (((l.take i).map (fun s => s.positions.length)).sum)).take
          (l.get ⟨i, h⟩).positions.length =
        (l.get ⟨i, h⟩).positions.map (fun role =>
          { role := role, person := mapPerson (l.get ⟨i, h⟩).person }) := by
  refine ⟨rfl, ?_, ?_⟩
  · induction l with
    | nil => rfl
    | cons s t ih => simp [mapStaff_cons, ih]
  · intro i h
    induction l generalizing i with
    | nil => simp at h
    | cons s t ih =>
      cases i with
      | zero =>
        simp only [List.take_zero, List.map_nil, List.sum_nil, List.drop_zero,
          List.get_cons_zero, mapStaff_cons]
        exact List.take_left' (List.length_map _ _)
      | succ j =>
        simp only [List.take_succ_cons, List.map_cons, List.sum_cons,
          List.get_cons_succ, mapStaff_cons]
        rw [show s.positions.length =
            (s.positions.map (fun role =>
              ({ role := role, person := mapPerson s.person } : AnimeStaff))).length
          from (List.length_map _ _).symm]
        rw [List.drop_append]
        exact ih j (Nat.lt_of_succ_lt_succ h)

/-- C4 witness: the two-position staff entry of the fixture produces the
two-element block predicted by the flattening law. -/
theorem claim_C4_staff_flattening_witness :
    (mapStaff rawStaff0).length =
      (rawStaff0.map (fun s => s.positions.length)).sum ∧
    ((mapStaff rawStaff0).drop
        (((rawStaff0.take 0).map (fun s => s.positions.length)).sum)).take
        (rawStaff0.get ⟨0, by decide⟩).positions.length =
      (rawStaff0.get ⟨0, by decide⟩).positions.map (fun role =>
        { role := role, person := mapPerson (rawStaff0.get ⟨0, by decide⟩).person }) :=
  ⟨(claim_C4_staff_flattening parse0 rawAnime0 rawChars0 rawStaff0).2.1,
   (claim_C4_staff_flattening parse0 rawAnime0 rawChars0 rawStaff0).2.2 0 (by decide)⟩

/-- The `x || null` image fallback never yields `undefined` and never
yields the empty string. -/
theorem jsOrNull_not_undef_not_empty (v : JsVal String) :
    JsVal.jsOrNull v ≠ .undef ∧ JsVal.jsOrNull v ≠ .val "" := by
  cases v with
  | undef => simp [JsVal.jsOrNull, JsVal.truthyStr]
  | jsNull => simp [JsVal.jsOrNull, JsVal.truthyStr]
  | val s =>
    cases hs : s.isEmpty with
    | true => simp [JsVal.jsOrNull, JsVal.truthyStr, hs]
    | false =>
      have hne : s ≠ "" := by
        intro hcon
        rw [hcon] at hs
        exact Bool.noConfusion ((rfl : "".isEmpty = true).symm.trans hs)
      simp [JsVal.jsOrNull, JsVal.truthyStr, hs, hne]

/-- C10: every image field of a mapped character, voice performer, or
staff person is either `null` or a non-empty string — never `undefined`
and never the empty string — because the `|| null` fallback collapses
an absent image URL and an empty-string image URL alike to `null`. -/
theorem claim_C10_image_null_or_nonempty (chars : List JikanCharacterRaw)
    (l : List JikanStaffRaw) :
    (∀ c ∈ mapCharacters chars,
      (c.character.image ≠ .undef ∧ c.character.image ≠ .val "") ∧
        ∀ v ∈ c.voiceActors,
          v.person.image ≠ .undef ∧ v.person.image ≠ .val "") ∧
    (∀ e ∈ mapStaff l, e.person.image ≠ .undef ∧ e.person.image ≠ .val "") ∧
    JsVal.jsOrNull .undef = .jsNull ∧
    JsVal.jsOrNull (.val "") = .jsNull := by
  refine ⟨?_, ?_, rfl, rfl⟩
  · intro c hc
    obtain ⟨craw, _, rfl⟩ := List.mem_map.1 hc
    refine ⟨jsOrNull_not_undef_not_empty _, ?_⟩
    intro v hv
    obtain ⟨varaw, _, rfl⟩ := List.mem_map.1 hv
    exact jsOrNull_not_undef_not_empty _
  · intro e he
    obtain ⟨sraw, _, hmem⟩ := List.mem_flatMap.1 he
    obtain ⟨role, _, rfl⟩ := List.mem_map.1 hmem
    exact jsOrNull_not_undef_not_empty _

/-- The first staff entry of the fixture's mapped staff list: the raw
empty-string image URL collapsed to `null`. -/
def staffEntry0 : AnimeStaff :=
  { role := "Music", person := { id := 1, name := "Evan Call", image := .jsNull } }

/-- C10 witness: a concrete mapped staff entry whose raw image URL was
the empty string carries a `null` image, not `undefined` and not `""`. -/
theorem claim_C10_image_null_or_nonempty_witness :
    staffEntry0.person.image ≠ JsVal.undef ∧
    staffEntry0.person.image ≠ JsVal.val "" :=
  (claim_C10_image_null_or_nonempty rawChars0 rawStaff0).2.1 staffEntry0 (by decide)

/-- Whether an id is a non-negative integer. -/
def nonnegId (i : Int) : Bool := decide (0 ≤ i)

/-- Every id occurring in the three raw payloads is non-negative (an
environmental assumption about upstream data: the code copies ids
verbatim and cannot manufacture the invariant itself). -/
def rawIdsNonneg (raw : JikanAnimeRaw) (chars : List JikanCharacterRaw)
    (l : List JikanStaffRaw) : Bool :=
  raw.genres.all (fun g => nonnegId g.mal_id) &&
  raw.producers.all (fun g => nonnegId g.mal_id) &&
  raw.licensors.all (fun g => nonnegId g.mal_id) &&
  raw.studios.all (fun g => nonnegId g.mal_id) &&
  (match raw.relations with
   | .val rels => rels.all (fun r => r.entry.all (fun e => nonnegId e.mal_id))
   | _ => true) &&
  chars.all (fun c => nonnegId c.character.mal_id &&
    c.voice_actors.all (fun va => nonnegId va.person.mal_id)) &&
  l.all (fun s => nonnegId s.person.mal_id)

/-- Every nested id of the aggregate is non-negative. -/
def animeIdsNonneg (a : Anime) : Bool :=
  a.genres.all (fun g => nonnegId g.id) &&
  a.companies.all (fun c => nonnegId c.company.id) &&
  a.relatedEntries.all (fun r => nonnegId r.relatedAnimeId) &&
  a.characters.all (fun c => nonnegId c.character.id &&
    c.voiceActors.all (fun v => nonnegId v.person.id)) &&
  a.staff.all (fun s => nonnegId s.person.id)

/-- A date-typed field is either `null` or a valid parsed instant
(a `Date` that is not Invalid and not `undefined`). -/
def dateOk : JsVal JSDate → Bool
  | .jsNull => true
  | .val d => d.time.isSome
  | .undef => false

/-- The aired strings that the pipeline actually parses (the truthy
ones) parse to valid instants — an assumption about the date strings
the upstream serves, since `new Date` validates nothing. -/
def parsesAired (p : DateParse) (raw : JikanAnimeRaw) : Bool :=
  (match raw.aired.optChain (fun a => a.from_) with
   | .val s => s.isEmpty || (p s).isSome
   | _ => true) &&
  (match raw.aired.optChain (fun a => a.to_) with
   | .val s => s.isEmpty || (p s).isSome
   | _ => true)

/-- The date ternary yields `null` or a valid instant whenever the
parsed string (if any) parses. -/
theorem mapAired_dateOk (p : DateParse) (v : JsVal String)
    (h : (match v with
          | .val s => s.isEmpty || (p s).isSome
          | _ => true) = true) :
    dateOk (mapAired p v) = true := by
  cases v with
  | undef => rfl
  | jsNull => rfl
  | val s =>
    cases hs : s.isEmpty with
    | true => simp [mapAired, hs, dateOk]
    | false =>
      simp only [hs, Bool.false_or] at h
      simp [mapAired, hs, dateOk, h]

/-- The mapping preserves non-negativity of every nested id. -/
theorem mapAnime_ids_nonneg (p : DateParse) (raw : JikanAnimeRaw)
    (chars : List JikanCharacterRaw) (l : List JikanStaffRaw)
    (h : rawIdsNonneg raw chars l = true) :
    animeIdsNonneg (mapAnime p raw chars l) = true := by
  simp only [rawIdsNonneg, Bool.and_eq_true, List.all_eq_true] at h
  obtain ⟨⟨⟨⟨⟨⟨hg, hp⟩, hl⟩, hs⟩, hr⟩, hc⟩, hst⟩ := h
  simp only [animeIdsNonneg, mapAnime, Bool.and_eq_true, List.all_eq_true]
  refine ⟨⟨⟨⟨?_, ?_⟩, ?_⟩, ?_⟩, ?_⟩
  · intro g hg'
    obtain ⟨graw, hmem, rfl⟩ := List.mem_map.1 hg'
    exact hg graw hmem
  · intro c hc'
    simp only [mapCompanies, List.mem_append, List.mem_map] at hc'
    rcases hc' with (⟨q, hq, rfl⟩ | ⟨q, hq, rfl⟩) | ⟨q, hq, rfl⟩
    · exact hp q hq
    · exact hl q hq
    · exact hs q hq
  · intro r hr'
    cases hrel : raw.relations with
    | val rels =>
      rw [hrel] at hr
      simp only [List.all_eq_true] at hr
      simp only [mapRelated, hrel, List.mem_flatMap, List.mem_map] at hr'
      obtain ⟨rel, hrelmem, e, hemem, rfl⟩ := hr'
      exact hr rel hrelmem e (List.mem_of_mem_filter hemem)
    | undef => rw [hrel] at hr'; simp [mapRelated] at hr'
    | jsNull => rw [hrel] at hr'; simp [mapRelated] at hr'
  · intro c hc'
    obtain ⟨craw, hmem, rfl⟩ := List.mem_map.1 hc'
    have hcc := hc craw hmem
    refine ⟨hcc.1, ?_⟩
    intro v hv
    obtain ⟨varaw, hvm, rfl⟩ := List.mem_map.1 hv
    exact hcc.2 varaw hvm
  · intro e he
    obtain ⟨sraw, hmem, hin⟩ := List.mem_flatMap.1 he
    obtain ⟨role, _, rfl⟩ := List.mem_map.1 hin
    exact hst sraw hmem

/-- C8: under the environmental assumptions that upstream ids are
non-negative and that the truthy aired strings parse, every returned
aggregate has the metadata fetch's id as its own id, only non-negative
nested ids, and aired dates that are each `null` or a valid parsed
instant.  (Every collection field of `Anime` is a total `List`-valued
field built by map/flatMap/append, so presence of the collections is
enforced by construction.) -/
theorem claim_C8_invariants (p : DateParse) (up : Upstream) (malId : Int)
    (a : Anime) (h : (getFullAnimeDetails p up malId).2 = .ok a)
    (hids : rawIdsNonneg up.full.body up.characters.body up.staff.body = true)
    (hdate : parsesAired p up.full.body = true) :
    a.id = up.full.body.mal_id ∧
    animeIdsNonneg a = true ∧
    dateOk a.airedFrom = true ∧
    dateOk a.airedTo = true := by
  obtain ⟨_, _, _, rfl⟩ := (getFullAnimeDetails_ok_iff p up malId a).1 h
  rw [parsesAired, Bool.and_eq_true] at hdate
  exact ⟨rfl, mapAnime_ids_nonneg p _ _ _ hids,
    mapAired_dateOk p _ hdate.1, mapAired_dateOk p _ hdate.2⟩

/-- C8 witness: the invariants hold of the concrete successful run. -/
theorem claim_C8_invariants_witness :
    (mapAnime parse0 rawAnime0 rawChars0 rawStaff0).id = up0.full.body.mal_id ∧
    animeIdsNonneg (mapAnime parse0 rawAnime0 rawChars0 rawStaff0) = true ∧
    dateOk (mapAnime parse0 rawAnime0 rawChars0 rawStaff0).airedFrom = true ∧
    dateOk (mapAnime parse0 rawAnime0 rawChars0 rawStaff0).airedTo = true :=
  claim_C8_invariants parse0 up0 1
    (mapAnime parse0 rawAnime0 rawChars0 rawStaff0) rfl (by decide) (by decide)

end AnimePoc
